import Mathlib

/-!
Verification of the asynchronous email delivery subsystem of the
Event-scheduling-system repository.

Embedded source files:
- backend/config/email.js          (emailConfigOfEnv and defaults)
- backend/services/emailService.js (createTransporter, templates, toPlainText,
                                    send, verifyConnection)
- backend/workers/emailQueue.js    (Bull queue construction: no job options)
- backend/worker.js                (worker startup: verifyConnection then
                                    emailQueue.process)
- backend/routes/bookings.js       (POST / and DELETE /:id handlers)
- backend/models/bookingModel.js   (BookingModel.cancel)

JavaScript effects are made explicit: the process clock, the locale date
formatter and the network outcomes of nodemailer are inputs (JsRuntime);
exceptions are Except values; the environment is an explicit Env record.
-/

namespace EventScheduler

/-! ### Environment and configuration (backend/config/email.js) -/

/-- The process environment variables read by config/email.js.
    A value of none models an unset variable. -/
structure Env where
  EMAIL_PROVIDER : Option String
  EMAIL_FROM : Option String
  GMAIL_USER : Option String
  GMAIL_APP_PASSWORD : Option String
  SMTP_HOST : Option String
  SMTP_PORT : Option String
  SMTP_USER : Option String
  SMTP_PASS : Option String
  SMTP_SECURE : Option String
  EMAIL_RETRY_ATTEMPTS : Option String
deriving Repr, DecidableEq

/-- JavaScript truthiness of a string-or-undefined value:
    undefined and the empty string are falsy. -/
def jsTruthy : Option String → Bool
  | none => false
  | some s => !s.isEmpty

/-- JavaScript `a || d` for a string-or-undefined `a` and default `d`. -/
def jsOr (a : Option String) (d : String) : String :=
  if jsTruthy a then a.getD d else d

/-- JavaScript `parseInt(x)` restricted to plain decimal numerals,
    none for NaN (in particular for an unset variable). -/
def parseIntJs : Option String → Option Nat
  | none => none
  | some s => s.toNat?

/-- JavaScript `parseInt(x) || d`: NaN and 0 both fall back to `d`. -/
def parseIntOr (a : Option String) (d : Nat) : Nat :=
  match parseIntJs a with
  | none => d
  | some n => if n = 0 then d else n

/-- The record exported by backend/config/email.js. -/
structure EmailConfig where
  provider : String
  fromAddress : String
  gmailUser : Option String
  gmailAppPassword : Option String
  smtpHost : Option String
  smtpPort : Nat
  smtpUser : Option String
  smtpPassword : Option String
  smtpSecure : Bool
  retryAttempts : Nat
deriving Repr, DecidableEq

/-- backend/config/email.js: how the exported record is computed from the
    environment. -/
def emailConfigOfEnv (env : Env) : EmailConfig :=
  { provider := jsOr env.EMAIL_PROVIDER "mock"
    fromAddress := jsOr env.EMAIL_FROM "noreply@scheduling-app.com"
    gmailUser := env.GMAIL_USER
    gmailAppPassword := env.GMAIL_APP_PASSWORD
    smtpHost := env.SMTP_HOST
    smtpPort := parseIntOr env.SMTP_PORT 587
    smtpUser := env.SMTP_USER
    smtpPassword := env.SMTP_PASS
    smtpSecure := env.SMTP_SECURE = some "true"
    retryAttempts := parseIntOr env.EMAIL_RETRY_ATTEMPTS 3 }

/-- An environment with none of the email variables set. -/
def emptyEnv : Env :=
  { EMAIL_PROVIDER := none, EMAIL_FROM := none, GMAIL_USER := none
    GMAIL_APP_PASSWORD := none, SMTP_HOST := none, SMTP_PORT := none
    SMTP_USER := none, SMTP_PASS := none, SMTP_SECURE := none
    EMAIL_RETRY_ATTEMPTS := none }

/-- The configuration in force when no email variables are set:
    mock provider, 3 retry attempts. -/
def defaultEmailConfig : EmailConfig := emailConfigOfEnv emptyEnv

/-! ### Ambient JavaScript runtime facilities -/

/-- The runtime facilities emailService.js reads besides its arguments:
    `Date.now()`, `new Date(s).toLocaleString()` (locale formatting of a
    date string), and the network outcomes of `transporter.sendMail` and
    `transporter.verify`. Making them inputs makes every hidden dependency
    of the service explicit. -/
structure JsRuntime where
  dateNow : Nat
  toLocaleString : String → String
  sendMailResult : Except String String
  verifyResult : Except String Unit

/-! ### Templates (backend/services/emailService.js, lines 72-151) -/

/-- The template payload `data`. JavaScript interpolates each accessed key
    into the output string; every field here is the string the
    corresponding interpolation produces (for a missing key that string is
    "undefined"). -/
structure TemplateData where
  title : String
  bookingId : String
  start : String
  endTime : String
  name : String
  orgName : String
  role : String
deriving Repr, DecidableEq

/-- The Rendered Message: the `{subject, html}` pair a template returns. -/
structure Rendered where
  subject : String
  html : String
deriving Repr, DecidableEq

/-- templates.BOOKING_CONFIRMATION html body. `fmt` is the runtime
    `new Date(x).toLocaleString()` formatter. -/
def bookingConfirmationHtml (fmt : String → String) (data : TemplateData) : String :=
  "\n            <div style=\"font-family: sans-serif; max-width: 600px; margin: auto; border: 1px solid #e0e0e0; border-radius: 8px; overflow: hidden;\">\n                <div style=\"background:#2563eb; padding: 24px; color: white;\">\n                    <h1 style=\"margin:0; font-size:22px;\">📅 Booking Confirmed</h1>\n                </div>\n                <div style=\"padding: 24px;\">\n                    <p>Hi there!</p>\n                    <p>Your booking <strong>\"" ++ data.title ++ "\"</strong> has been confirmed.</p>\n                    <table style=\"width:100%; border-collapse:collapse; margin:16px 0;\">\n                        <tr style=\"background:#f3f4f6;\">\n                            <td style=\"padding:10px; font-weight:bold;\">Booking ID</td>\n                            <td style=\"padding:10px;\">#" ++ data.bookingId ++ "</td>\n                        </tr>\n                        <tr>\n                            <td style=\"padding:10px; font-weight:bold;\">Start</td>\n                            <td style=\"padding:10px;\">" ++ fmt data.start ++ "</td>\n                        </tr>\n                        <tr style=\"background:#f3f4f6;\">\n                            <td style=\"padding:10px; font-weight:bold;\">End</td>\n                            <td style=\"padding:10px;\">" ++ fmt data.endTime ++ "</td>\n                        </tr>\n                    </table>\n                    <p style=\"color:#6b7280; font-size:14px;\">Thank you for using our scheduling system!</p>\n                </div>\n            </div>\n        "

/-- templates.BOOKING_CANCELLED html body. -/
def bookingCancelledHtml (data : TemplateData) : String :=
  "\n            <div style=\"font-family: sans-serif; max-width: 600px; margin: auto; border: 1px solid #e0e0e0; border-radius: 8px; overflow: hidden;\">\n                <div style=\"background:#dc2626; padding: 24px; color: white;\">\n                    <h1 style=\"margin:0; font-size:22px;\">🚫 Booking Cancelled</h1>\n                </div>\n                <div style=\"padding: 24px;\">\n                    <p>Hi there,</p>\n                    <p>Your booking <strong>\"" ++ data.title ++ "\"</strong> (ID: #" ++ data.bookingId ++ ") has been cancelled.</p>\n                    <p>If this was a mistake, you can create a new booking at any time.</p>\n                    <p style=\"color:#6b7280; font-size:14px;\">Scheduling App Team</p>\n                </div>\n            </div>\n        "

/-- templates.WELCOME html body. -/
def welcomeHtml (data : TemplateData) : String :=
  "\n            <div style=\"font-family: sans-serif; max-width: 600px; margin: auto; border: 1px solid #e0e0e0; border-radius: 8px; overflow: hidden;\">\n                <div style=\"background:#16a34a; padding: 24px; color: white;\">\n                    <h1 style=\"margin:0; font-size:22px;\">Welcome aboard! 🎉</h1>\n                </div>\n                <div style=\"padding: 24px;\">\n                    <p>Hi <strong>" ++ data.name ++ "</strong>!</p>\n                    <p>Your account has been created successfully. You can now create bookings, join organizations, and more.</p>\n                    <p style=\"color:#6b7280; font-size:14px;\">Scheduling App Team</p>\n                </div>\n            </div>\n        "

/-- templates.ORG_INVITE html body. -/
def orgInviteHtml (data : TemplateData) : String :=
  "\n            <div style=\"font-family: sans-serif; max-width: 600px; margin: auto; border: 1px solid #e0e0e0; border-radius: 8px; overflow: hidden;\">\n                <div style=\"background:#7c3aed; padding: 24px; color: white;\">\n                    <h1 style=\"margin:0; font-size:22px;\">🏢 Organization Invite</h1>\n                </div>\n                <div style=\"padding: 24px;\">\n                    <p>Hi there!</p>\n                    <p>You\x27ve been added as a <strong>" ++ data.role ++ "</strong> to the organization <strong>\"" ++ data.orgName ++ "\"</strong>.</p>\n                    <p style=\"color:#6b7280; font-size:14px;\">Scheduling App Team</p>\n                </div>\n            </div>\n        "

/-- The registered template keys of the `templates` object, in declaration
    order (also the order Object.keys joins them in the unknown-type
    error message). -/
def registeredTypes : List String :=
  ["BOOKING_CONFIRMATION", "BOOKING_CANCELLED", "WELCOME", "ORG_INVITE"]

/-- The `templates` object: lookup of the template function for a job
    type. `fmt` is the locale date formatter the BOOKING_CONFIRMATION
    template applies to data.start and data.end. -/
def templates (fmt : String → String) (type : String) : Option (TemplateData → Rendered) :=
  if type = "BOOKING_CONFIRMATION" then
    some (fun data =>
      { subject := "✅ Booking Confirmed: \"" ++ data.title ++ "\""
        html := bookingConfirmationHtml fmt data })
  else if type = "BOOKING_CANCELLED" then
    some (fun data =>
      { subject := "❌ Booking Cancelled: \"" ++ data.title ++ "\""
        html := bookingCancelledHtml data })
  else if type = "WELCOME" then
    some (fun data =>
      { subject := "👋 Welcome to Scheduling App, " ++ data.name ++ "!"
        html := welcomeHtml data })
  else if type = "ORG_INVITE" then
    some (fun data =>
      { subject := "🏢 You\x27ve been added to \"" ++ data.orgName ++ "\""
        html := orgInviteHtml data })
  else none

/-- Rendering as the worker performs it: select the template for `type`
    and apply it to the payload. -/
def renderTemplate (rt : JsRuntime) (type : String) (data : TemplateData) : Option Rendered :=
  (templates rt.toLocaleString type).map (fun f => f data)

/-! ### Plain-text fallback (toPlainText, emailService.js lines 154-156)
    `html.replace(/<[^>]+>/g, "").replace(/\s+/g, " ").trim()` -/

/-- JavaScript regex whitespace class \s members occurring in practice. -/
def isJsWhitespace (c : Char) : Bool :=
  c = ' ' || c = '\n' || c = '\t' || c = '\r' || c = '\x0b' || c = '\x0c'

/-- After an opening angle bracket, scan for the closing one; some rest =
    the characters after it. -/
def dropToClose : List Char → Option (List Char)
  | [] => none
  | c :: rest => if c = '>' then some rest else dropToClose rest

/-- Match the regex <[^>]+> starting right after the opening bracket:
    at least one character other than the closing bracket, then the
    closing bracket. -/
def chopTag : List Char → Option (List Char)
  | [] => none
  | c :: rest => if c = '>' then none else dropToClose rest

/-- Remove every <[^>]+> match (fuel-indexed scan; fuel = input length
    suffices since the remainder shrinks at every step). -/
def stripTagsAux : Nat → List Char → List Char
  | 0, l => l
  | _ + 1, [] => []
  | fuel + 1, c :: rest =>
    if c = '<' then
      match chopTag rest with
      | some rest2 => stripTagsAux fuel rest2
      | none => c :: stripTagsAux fuel rest
    else c :: stripTagsAux fuel rest

/-- Replace every \s+ run by a single space. -/
def collapseWsAux : Nat → List Char → List Char
  | 0, l => l
  | _ + 1, [] => []
  | fuel + 1, c :: rest =>
    if isJsWhitespace c then ' ' :: collapseWsAux fuel (rest.dropWhile isJsWhitespace)
    else c :: collapseWsAux fuel rest

/-- JavaScript String.prototype.trim. -/
def trimJs (l : List Char) : List Char :=
  ((l.dropWhile isJsWhitespace).reverse.dropWhile isJsWhitespace).reverse

/-- emailService.js toPlainText: strip tags, collapse whitespace, trim. -/
def toPlainText (html : String) : String :=
  let chars := html.toList
  let noTags := stripTagsAux chars.length chars
  String.mk (trimJs (collapseWsAux noTags.length noTags))

/-! ### Transporter construction (createTransporter, lines 22-66) -/

/-- A constructed nodemailer transporter, by provider branch. -/
inductive Transporter where
  | gmail (user pass : String)
  | smtp (host : String) (port : Nat) (secure : Bool) (user pass : String)
deriving Repr, DecidableEq

/-- createTransporter: .error = a thrown Error message; .ok none = the
    null returned on the mock/default branch; .ok (some t) = a transporter. -/
def createTransporter (cfg : EmailConfig) : Except String (Option Transporter) :=
  if cfg.provider = "gmail" then
    if !jsTruthy cfg.gmailUser || !jsTruthy cfg.gmailAppPassword then
      Except.error "Gmail provider requires GMAIL_USER and GMAIL_APP_PASSWORD in .env"
    else
      Except.ok (some (Transporter.gmail (cfg.gmailUser.getD "") (cfg.gmailAppPassword.getD "")))
  else if cfg.provider = "smtp" then
    if !jsTruthy cfg.smtpHost || !jsTruthy cfg.smtpUser || !jsTruthy cfg.smtpPassword then
      Except.error "SMTP provider requires SMTP_HOST, SMTP_USER, and SMTP_PASS in .env"
    else
      Except.ok (some (Transporter.smtp (cfg.smtpHost.getD "") cfg.smtpPort cfg.smtpSecure
        (cfg.smtpUser.getD "") (cfg.smtpPassword.getD "")))
  else
    Except.ok none

/-! ### send (emailService.js lines 162-195) -/

/-- The exceptional outcomes a send call can produce, distinguished by
    provenance; message recovers the JavaScript error text. -/
inductive SendErr where
  | unknownType (type : String)
  | configError (msg : String)
  | nullTransporter
  | transportError (msg : String)
deriving Repr, DecidableEq

/-- The JavaScript error message carried by each failure. -/
def SendErr.message : SendErr → String
  | SendErr.unknownType t =>
      "Unknown email type: \"" ++ t ++
        "\". Available: BOOKING_CONFIRMATION, BOOKING_CANCELLED, WELCOME, ORG_INVITE"
  | SendErr.configError m => m
  | SendErr.nullTransporter =>
      "TypeError: Cannot read properties of null (reading sendMail)"
  | SendErr.transportError m => m

/-- The resolved value of a successful send: exactly the fields
    success, provider and messageId. -/
structure SendOk where
  success : Bool
  provider : String
  messageId : String
deriving Repr, DecidableEq

/-- The message object handed to transporter.sendMail. -/
structure MailMessage where
  fromField : String
  toAddr : String
  subject : String
  html : String
  text : String
deriving Repr, DecidableEq

/-- The observable behaviour of one send(to, type, data) call: the
    settled promise, whether createTransporter ran, and the message (if
    any) handed to the network transport. -/
structure SendTrace where
  result : Except SendErr SendOk
  builtTransporter : Bool
  handedToTransport : Option MailMessage
deriving Repr

/-- emailService.send. Control flow follows the source: template lookup
    (throw on an unregistered type), rendering, the mock short-circuit
    (console log only, resolves with a mock- message id), otherwise
    createTransporter and transporter.sendMail. -/
def send (cfg : EmailConfig) (rt : JsRuntime) (toAddr type : String) (data : TemplateData) : SendTrace :=
  match templates rt.toLocaleString type with
  | none =>
    { result := Except.error (SendErr.unknownType type)
      builtTransporter := false
      handedToTransport := none }
  | some templateFn =>
    let r := templateFn data
    if cfg.provider = "mock" then
      { result := Except.ok
          { success := true, provider := "mock"
            messageId := "mock-" ++ toString rt.dateNow }
        builtTransporter := false
        handedToTransport := none }
    else
      match createTransporter cfg with
      | Except.error e =>
        { result := Except.error (SendErr.configError e)
          builtTransporter := true
          handedToTransport := none }
      | Except.ok none =>
        { result := Except.error SendErr.nullTransporter
          builtTransporter := true
          handedToTransport := none }
      | Except.ok (some _) =>
        let msg : MailMessage :=
          { fromField := "\"Scheduling App\" <" ++ cfg.fromAddress ++ ">"
            toAddr := toAddr
            subject := r.subject
            html := r.html
            text := toPlainText r.html }
        match rt.sendMailResult with
        | Except.error e =>
          { result := Except.error (SendErr.transportError e)
            builtTransporter := true
            handedToTransport := some msg }
        | Except.ok mid =>
          { result := Except.ok
              { success := true, provider := cfg.provider, messageId := mid }
            builtTransporter := true
            handedToTransport := some msg }

/-! ### verifyConnection (lines 198-210) and worker startup (worker.js) -/

/-- What verifyConnection does: it logs and always returns normally
    (the try/catch swallows every error). -/
inductive VerifyOutcome where
  | mockMode
  | connected (provider : String)
  | loggedFailure (msg : String)
deriving Repr, DecidableEq

/-- emailService.verifyConnection: mock mode returns immediately; any
    error out of createTransporter or transporter.verify is caught and
    logged, never rethrown. A null transporter (provider neither mock,
    gmail nor smtp) throws a TypeError inside the try, also caught. -/
def verifyConnection (cfg : EmailConfig) (rt : JsRuntime) : VerifyOutcome :=
  if cfg.provider = "mock" then VerifyOutcome.mockMode
  else
    match createTransporter cfg with
    | Except.error e => VerifyOutcome.loggedFailure e
    | Except.ok none =>
      VerifyOutcome.loggedFailure "TypeError: Cannot read properties of null (reading verify)"
    | Except.ok (some _) =>
      match rt.verifyResult with
      | Except.ok _ => VerifyOutcome.connected cfg.provider
      | Except.error e => VerifyOutcome.loggedFailure e

/-- What the worker.js top level does at startup. -/
structure WorkerStartup where
  verify : VerifyOutcome
  processorRegistered : Bool
deriving Repr, DecidableEq

/-- worker.js startup sequence: call verifyConnection (fire and forget,
    its promise is not awaited and it never rejects), then
    unconditionally register the job processor with emailQueue.process.
    There is no conditional between the two calls in the source. -/
def workerStartup (cfg : EmailConfig) (rt : JsRuntime) : WorkerStartup :=
  { verify := verifyConnection cfg rt
    processorRegistered := true }

/-! ### The Bull queue as configured by this repository
    (backend/workers/emailQueue.js and every emailQueue.add call site) -/

/-- Bull per-job backoff setting. -/
structure BackoffOpt where
  kind : String
  delay : Nat
deriving Repr, DecidableEq

/-- Bull job options relevant to retry behaviour. -/
structure JobOptions where
  attempts : Nat
  backoff : Option BackoffOpt
deriving Repr, DecidableEq

/-- The job options in force for every job of the email queue:
    workers/emailQueue.js creates `new Queue("emails", {createClient})`
    with no defaultJobOptions, and every `emailQueue.add(data)` call
    (routes/bookings.js, routes/auth.js, routes/organizations.js) passes
    no per-job options, so the Bull documented defaults apply:
    attempts = 1 and no backoff. -/
def emailQueueJobOptions : JobOptions :=
  { attempts := 1, backoff := none }

/-- Bull delay before a failed attempt is retried, as a function of the
    job options: no backoff setting retries immediately (delay 0);
    a fixed backoff waits the constant delay; an exponential backoff
    waits delay * 2 ^ (attemptsMade - 1). -/
def retryDelay (opts : JobOptions) (attemptsMade : Nat) : Nat :=
  match opts.backoff with
  | none => 0
  | some b => if b.kind = "exponential" then b.delay * 2 ^ (attemptsMade - 1) else b.delay

/-- Observable result of Bull processing one job to completion or
    permanent failure: how many times the processor (hence
    emailService.send, hence deliver) ran, how many of those attempts
    failed (the spec attempt_count, incremented per re-dispatch),
    whether the job completed, and how many acknowledgements occurred. -/
structure JobRun where
  handlerCalls : Nat
  failedAttempts : Nat
  completed : Bool
  acks : Nat
deriving Repr, DecidableEq

/-- Bull retry loop for one job: run the handler; on success the job is
    acknowledged (moved to completed); on failure it is retried while
    the number of attempts made is below opts.attempts, after which it
    is moved to the failed set permanently. `handler n` is the outcome
    of the attempt made after n failures. -/
def runJobAux (handler : Nat → Bool) : Nat → Nat → JobRun
  | 0, made =>
    { handlerCalls := made, failedAttempts := made, completed := false, acks := 0 }
  | remaining + 1, made =>
    if handler made then
      { handlerCalls := made + 1, failedAttempts := made, completed := true, acks := 1 }
    else
      runJobAux handler remaining (made + 1)

/-- Process one job of the email queue under the given options. -/
def runJob (opts : JobOptions) (handler : Nat → Bool) : JobRun :=
  runJobAux handler opts.attempts 0

/-! ### BookingModel (backend/models/bookingModel.js) -/

/-- A row of the bookings table (the columns the cancel path touches). -/
structure BookingRow where
  id : Nat
  userId : Nat
  title : String
  startTime : String
  endTime : String
  status : String
deriving Repr, DecidableEq

/-- The WHERE clause of BookingModel.cancel:
    id = $1 AND user_id = $2 AND status != the cancelled literal. -/
def cancelWhere (bookingId userId : Nat) (r : BookingRow) : Bool :=
  r.id = bookingId && r.userId = userId && r.status ≠ "cancelled"

/-- The SET clause of BookingModel.cancel applied to one row. -/
def cancelSet (r : BookingRow) : BookingRow :=
  { r with status := "cancelled" }

namespace BookingModel

/-- BookingModel.cancel: UPDATE bookings SET status, updated_at WHERE
    id AND user_id AND status is not already cancelled, RETURNING *;
    the model returns rows[0] (none when no row matched) together with
    the table after the update. -/
def cancel (bookingId userId : Nat) (db : List BookingRow) : Option BookingRow × List BookingRow :=
  (((db.filter (cancelWhere bookingId userId)).map cancelSet).head?,
    db.map (fun r => if cancelWhere bookingId userId r then cancelSet r else r))

end BookingModel

/-! ### Route handlers (backend/routes/bookings.js) -/

/-- The side effects a bookings route handler performs, in call order. -/
inductive RouteEvent where
  | dbCreate (ok : Bool)
  | dbCancelOk (bookingId : Nat)
  | enqueueEmail (type : String)
  | notifyCreate (ok : Bool)
deriving Repr, DecidableEq

/-- The response status and the ordered trace of side effects of one
    request. -/
structure RouteOutcome where
  status : Nat
  events : List RouteEvent
deriving Repr, DecidableEq

/-- The request body of POST /bookings; each field is absent, or present
    with a string value (JavaScript falsiness collapses absent and empty). -/
structure CreateReq where
  title : Option String
  start : Option String
  endField : Option String
deriving Repr, DecidableEq

/-- Date handling environment of the route: new Date(s).getTime() as
    milliseconds (none models NaN, an invalid date), and the clock. -/
structure DateEnv where
  parse : String → Option Int
  now : Int

/-- POST /bookings handler (routes/bookings.js lines 32-92): field
    presence check, date validation, BookingModel.create (its resolution
    or rejection is the dbCreate argument), then the fire and forget
    emailQueue.add of a BOOKING_CONFIRMATION job, then
    NotificationModel.create; a rejection of either awaited model call
    is caught by the surrounding try and answered with 500. -/
def createBookingHandler (env : DateEnv) (req : CreateReq)
    (dbCreate : Except Unit BookingRow) (notifOk : Bool) : RouteOutcome :=
  if !jsTruthy req.title || !jsTruthy req.start || !jsTruthy req.endField then
    { status := 400, events := [] }
  else
    match env.parse (req.start.getD ""), env.parse (req.endField.getD "") with
    | none, _ => { status := 400, events := [] }
    | some _, none => { status := 400, events := [] }
    | some startMs, some endMs =>
      if startMs < env.now then { status := 400, events := [] }
      else if endMs ≤ startMs then { status := 400, events := [] }
      else
        match dbCreate with
        | Except.error _ => { status := 500, events := [RouteEvent.dbCreate false] }
        | Except.ok _ =>
          if notifOk then
            { status := 201
              events := [RouteEvent.dbCreate true,
                RouteEvent.enqueueEmail "BOOKING_CONFIRMATION",
                RouteEvent.notifyCreate true] }
          else
            { status := 500
              events := [RouteEvent.dbCreate true,
                RouteEvent.enqueueEmail "BOOKING_CONFIRMATION",
                RouteEvent.notifyCreate false] }

/-- DELETE /bookings/:id handler (routes/bookings.js lines 173-208):
    BookingModel.cancel first; when it resolves with no row the response
    is 404 and nothing else happens; when it resolves with a row, the
    BOOKING_CANCELLED job is enqueued and the notification created.
    `dbThrows` injects a rejection of the awaited cancel query (caught
    by the try, answered 500 before any other side effect). -/
def cancelBookingHandler (bookingId userId : Nat) (db : List BookingRow)
    (dbThrows : Bool) (notifOk : Bool) : RouteOutcome × List BookingRow :=
  if dbThrows then ({ status := 500, events := [] }, db)
  else
    match BookingModel.cancel bookingId userId db with
    | (none, dbAfter) => ({ status := 404, events := [] }, dbAfter)
    | (some row, dbAfter) =>
      if notifOk then
        ({ status := 200
           events := [RouteEvent.dbCancelOk row.id,
             RouteEvent.enqueueEmail "BOOKING_CANCELLED",
             RouteEvent.notifyCreate true] }, dbAfter)
      else
        ({ status := 500
           events := [RouteEvent.dbCancelOk row.id,
             RouteEvent.enqueueEmail "BOOKING_CANCELLED",
             RouteEvent.notifyCreate false] }, dbAfter)

/-! ### Helper lemmas -/

theorem templates_none_iff (fmt : String → String) (type : String) :
    templates fmt type = none ↔ type ∉ registeredTypes := by
  unfold templates registeredTypes
  split_ifs <;> simp_all

theorem templates_some_of_mem (fmt : String → String) {type : String}
    (h : type ∈ registeredTypes) : ∃ f, templates fmt type = some f := by
  unfold registeredTypes at h
  simp only [List.mem_cons, List.not_mem_nil, or_false] at h
  rcases h with h | h | h | h <;> subst h <;> exact ⟨_, rfl⟩

theorem send_not_unknown_of_some (cfg : EmailConfig) (rt : JsRuntime)
    (toAddr type : String) (data : TemplateData) (f : TemplateData → Rendered)
    (h : templates rt.toLocaleString type = some f) :
    ∀ t, (send cfg rt toAddr type data).result ≠ Except.error (SendErr.unknownType t) := by
  intro t
  unfold send
  rw [h]
  by_cases hm : cfg.provider = "mock" <;> simp only [hm, if_true, if_false, reduceIte]
  · intro hcontra
    exact Except.noConfusion hcontra
  · cases hc : createTransporter cfg with
    | error e => simp
    | ok ot =>
      cases ot with
      | none => simp
      | some tr =>
        cases hs : rt.sendMailResult with
        | error e => simp
        | ok mid => simp

/-! ### Claim theorems -/

/-- C1 (code_bug evidence): the retry configuration is never wired into
the queue. A job of the email queue whose handler always fails — for
example send under EMAIL_PROVIDER=gmail with valid credentials but an
unreachable mail server — is attempted exactly once and permanently
failed: the queue is created without job options, so the Bull default of
a single attempt applies, while the configured retry count
(EMAIL_RETRY_ATTEMPTS, default 3) says three attempts. -/
theorem retry_never_wired_single_attempt :
    (send (emailConfigOfEnv { emptyEnv with
        EMAIL_PROVIDER := some "gmail"
        GMAIL_USER := some "user@gmail.com"
        GMAIL_APP_PASSWORD := some "app-pass" })
      ({ dateNow := 0, toLocaleString := fun s => s,
         sendMailResult := Except.error "ECONNREFUSED",
         verifyResult := Except.error "ECONNREFUSED" } : JsRuntime)
      "a@example.com" "BOOKING_CONFIRMATION"
      ({ title := "Standup", bookingId := "1", start := "2026-04-01T09:00:00Z",
         endTime := "2026-04-01T10:00:00Z", name := "undefined",
         orgName := "undefined", role := "undefined" } : TemplateData)).result =
      Except.error (SendErr.transportError "ECONNREFUSED") ∧
    runJob emailQueueJobOptions (fun _ => false) =
      { handlerCalls := 1, failedAttempts := 1, completed := false, acks := 0 } ∧
    emailQueueJobOptions.attempts = 1 ∧
    defaultEmailConfig.retryAttempts = 3 :=
  ⟨rfl, rfl, rfl, rfl⟩

/-- C2: rendering is a pure, deterministic function of the payload (and of
the ambient locale formatter, fixed within a process): the rendered
output of any job type does not depend on the clock, the network or the
database outcomes of the runtime, and two runs over identical inputs are
byte-identical. -/
theorem rendering_pure_deterministic :
    ∀ (rt1 rt2 : JsRuntime), rt1.toLocaleString = rt2.toLocaleString →
      ∀ (type : String) (data : TemplateData),
        renderTemplate rt1 type data = renderTemplate rt2 type data := by
  intro rt1 rt2 h type data
  unfold renderTemplate
  rw [h]

/-- C2 witness: two runtimes that agree on locale formatting but differ
in clock and in network availability render identically. -/
theorem rendering_pure_deterministic_apply :
    renderTemplate
      ({ dateNow := 0, toLocaleString := fun s => s,
         sendMailResult := Except.ok "a", verifyResult := Except.ok () } : JsRuntime)
      "WELCOME"
      ({ title := "t", bookingId := "1", start := "s", endTime := "e",
         name := "Ada", orgName := "o", role := "member" } : TemplateData) =
    renderTemplate
      ({ dateNow := 999, toLocaleString := fun s => s,
         sendMailResult := Except.error "network down",
         verifyResult := Except.error "network down" } : JsRuntime)
      "WELCOME"
      ({ title := "t", bookingId := "1", start := "s", endTime := "e",
         name := "Ada", orgName := "o", role := "member" } : TemplateData) :=
  rendering_pure_deterministic _ _ rfl "WELCOME" _

/-- C4 counterexample: invalid transport configuration does not prevent
the worker process from starting. With EMAIL_PROVIDER=gmail and no
credentials, verifyConnection merely logs the configuration error
(the try/catch swallows it) and worker.js still registers its job
processor. -/
theorem invalid_config_worker_still_starts :
    verifyConnection (emailConfigOfEnv { emptyEnv with EMAIL_PROVIDER := some "gmail" })
      ({ dateNow := 0, toLocaleString := fun s => s,
         sendMailResult := Except.error "unreachable",
         verifyResult := Except.error "unreachable" } : JsRuntime) =
      VerifyOutcome.loggedFailure
        "Gmail provider requires GMAIL_USER and GMAIL_APP_PASSWORD in .env" ∧
    (workerStartup (emailConfigOfEnv { emptyEnv with EMAIL_PROVIDER := some "gmail" })
      ({ dateNow := 0, toLocaleString := fun s => s,
         sendMailResult := Except.error "unreachable",
         verifyResult := Except.error "unreachable" } : JsRuntime)).processorRegistered = true :=
  ⟨rfl, rfl⟩

/-- C4 amended: the worker always starts its job-processing loop,
whatever the transport configuration; verifyConnection runs first but
its outcome (including any logged failure) never gates startup. -/
theorem worker_always_starts :
    ∀ (cfg : EmailConfig) (rt : JsRuntime),
      (workerStartup cfg rt).processorRegistered = true ∧
      (workerStartup cfg rt).verify = verifyConnection cfg rt :=
  fun _ _ => ⟨rfl, rfl⟩

/-- C7 counterexample: between the first failed attempt and the second,
the re-dispatch delay of the email queue does not increase — no backoff
is configured, so the delay is 0 both times. -/
theorem retry_delay_not_increasing :
    ¬ (retryDelay emailQueueJobOptions 1 < retryDelay emailQueueJobOptions 2) := by
  decide

/-- C7 amended: the email queue imposes no backoff delay at all: the
delay before a failed job would become claimable again is 0 for every
attempt count (and with the default single attempt a failed job is never
re-dispatched in the first place). -/
theorem retry_delay_always_zero :
    ∀ (attemptsMade : Nat), retryDelay emailQueueJobOptions attemptsMade = 0 :=
  fun _ => rfl

/-- C8: happy path. The BOOKING_CONFIRMATION template embeds data.title
in its subject for every payload; for the payload with title Standup the
rendered subject contains "Standup"; and processing the enqueued job in
mock mode makes exactly one deliver (handler) call, acknowledges once,
and leaves the count of failed attempts at 0. -/
theorem happy_path_one_deliver_ack :
    (∀ (fmt : String → String) (d : TemplateData),
      ∃ f, templates fmt "BOOKING_CONFIRMATION" = some f ∧
        (f d).subject = "✅ Booking Confirmed: \"" ++ d.title ++ "\"") ∧
    (∃ pre post,
      (renderTemplate
        ({ dateNow := 0, toLocaleString := fun s => s,
           sendMailResult := Except.ok "x", verifyResult := Except.ok () } : JsRuntime)
        "BOOKING_CONFIRMATION"
        ({ title := "Standup", bookingId := "undefined",
           start := "2026-04-01T09:00:00Z", endTime := "undefined",
           name := "undefined", orgName := "undefined",
           role := "undefined" } : TemplateData)).map Rendered.subject =
        some (pre ++ "Standup" ++ post)) ∧
    runJob emailQueueJobOptions
      (fun _ =>
        match (send defaultEmailConfig
            ({ dateNow := 0, toLocaleString := fun s => s,
               sendMailResult := Except.ok "x", verifyResult := Except.ok () } : JsRuntime)
            "a@example.com" "BOOKING_CONFIRMATION"
            ({ title := "Standup", bookingId := "undefined",
               start := "2026-04-01T09:00:00Z", endTime := "undefined",
               name := "undefined", orgName := "undefined",
               role := "undefined" } : TemplateData)).result with
        | Except.ok _ => true
        | Except.error _ => false) =
      { handlerCalls := 1, failedAttempts := 0, completed := true, acks := 1 } := by
  refine ⟨fun fmt d => ⟨_, rfl, rfl⟩, ⟨"✅ Booking Confirmed: \"", "\"", rfl⟩, rfl⟩

/-- C3: send raises the Unknown email type error exactly for the types
outside the registered template keys; for every registered type a
template function is selected and rendering proceeds. -/
theorem unknown_type_iff_unregistered :
    ∀ (cfg : EmailConfig) (rt : JsRuntime) (toAddr type : String) (data : TemplateData),
      ((send cfg rt toAddr type data).result = Except.error (SendErr.unknownType type) ↔
        type ∉ registeredTypes) ∧
      (type ∈ registeredTypes → ∃ f, templates rt.toLocaleString type = some f) := by
  intro cfg rt toAddr type data
  refine ⟨⟨?_, ?_⟩, fun hin => templates_some_of_mem rt.toLocaleString hin⟩
  · intro he hin
    rcases templates_some_of_mem rt.toLocaleString hin with ⟨f, hf⟩
    exact send_not_unknown_of_some cfg rt toAddr type data f hf type he
  · intro hnotin
    have hn : templates rt.toLocaleString type = none :=
      (templates_none_iff _ _).mpr hnotin
    unfold send
    rw [hn]

/-- C3 witness: an unregistered type produces the unknown-type error. -/
theorem unknown_type_iff_unregistered_apply :
    (send defaultEmailConfig
      ({ dateNow := 0, toLocaleString := fun s => s,
         sendMailResult := Except.ok "x", verifyResult := Except.ok () } : JsRuntime)
      "a@example.com" "PASSWORD_RESET"
      ({ title := "t", bookingId := "1", start := "s", endTime := "e",
         name := "n", orgName := "o", role := "r" } : TemplateData)).result =
      Except.error (SendErr.unknownType "PASSWORD_RESET") :=
  (unknown_type_iff_unregistered defaultEmailConfig
    ({ dateNow := 0, toLocaleString := fun s => s,
       sendMailResult := Except.ok "x", verifyResult := Except.ok () } : JsRuntime)
    "a@example.com" "PASSWORD_RESET"
    ({ title := "t", bookingId := "1", start := "s", endTime := "e",
       name := "n", orgName := "o", role := "r" } : TemplateData)).1.mpr (by decide)

/-- C9: in mock mode send succeeds for every registered type, target and
payload, resolving with success, provider mock and a message id starting
with mock-; it never constructs a transporter and never hands a message
to the network; an unknown type is the only failure. -/
theorem mock_mode_always_succeeds :
    ∀ (cfg : EmailConfig) (rt : JsRuntime) (toAddr type : String) (data : TemplateData),
      cfg.provider = "mock" →
      (type ∈ registeredTypes →
        send cfg rt toAddr type data =
          { result := Except.ok
              { success := true, provider := "mock"
                messageId := "mock-" ++ toString rt.dateNow }
            builtTransporter := false
            handedToTransport := none }) ∧
      (send cfg rt toAddr type data).builtTransporter = false ∧
      (send cfg rt toAddr type data).handedToTransport = none ∧
      (∀ e, (send cfg rt toAddr type data).result = Except.error e ↔
        (e = SendErr.unknownType type ∧ type ∉ registeredTypes)) := by
  intro cfg rt toAddr type data hm
  cases hT : templates rt.toLocaleString type with
  | none =>
    have hnotin := (templates_none_iff rt.toLocaleString type).mp hT
    have hs : send cfg rt toAddr type data =
        { result := Except.error (SendErr.unknownType type)
          builtTransporter := false
          handedToTransport := none } := by
      unfold send; rw [hT]
    refine ⟨fun hin => absurd hin hnotin, by rw [hs], by rw [hs], ?_⟩
    intro e
    rw [hs]
    constructor
    · intro he
      injection he with h
      subst h
      exact ⟨rfl, hnotin⟩
    · rintro ⟨he, _⟩
      rw [he]
  | some f =>
    have hin : type ∈ registeredTypes := by
      by_contra hnot
      rw [(templates_none_iff rt.toLocaleString type).mpr hnot] at hT
      exact Option.noConfusion hT
    have hs : send cfg rt toAddr type data =
        { result := Except.ok
            { success := true, provider := "mock"
              messageId := "mock-" ++ toString rt.dateNow }
          builtTransporter := false
          handedToTransport := none } := by
      simp [send, hT, hm]
    refine ⟨fun _ => hs, by rw [hs], by rw [hs], ?_⟩
    intro e
    rw [hs]
    constructor
    · intro he
      exact Except.noConfusion he
    · rintro ⟨_, hnot⟩
      exact absurd hin hnot

/-- C9 witness: a concrete mock-mode send of a registered type resolves
with the mock success record. -/
theorem mock_mode_always_succeeds_apply :
    send defaultEmailConfig
      ({ dateNow := 0, toLocaleString := fun s => s,
         sendMailResult := Except.error "network down",
         verifyResult := Except.error "network down" } : JsRuntime)
      "a@example.com" "WELCOME"
      ({ title := "t", bookingId := "1", start := "s", endTime := "e",
         name := "Ada", orgName := "o", role := "r" } : TemplateData) =
      { result := Except.ok
          { success := true, provider := "mock"
            messageId := "mock-" ++ toString (0 : Nat) }
        builtTransporter := false
        handedToTransport := none } :=
  (mock_mode_always_succeeds defaultEmailConfig
    ({ dateNow := 0, toLocaleString := fun s => s,
       sendMailResult := Except.error "network down",
       verifyResult := Except.error "network down" } : JsRuntime)
    "a@example.com" "WELCOME"
    ({ title := "t", bookingId := "1", start := "s", endTime := "e",
       name := "Ada", orgName := "o", role := "r" } : TemplateData) rfl).1 (by decide)

/-- C5: pipeline to transport contract. The message handed to the
transport carries exactly the subject and html of the Rendered Message of
the selected template (addressed to the requested target); a fulfilled
send resolves with success = true and the provider and message id fields;
a rejected send carries the error description of its cause, in particular
a transport rejection is surfaced verbatim. -/
theorem pipeline_transport_contract :
    ∀ (cfg : EmailConfig) (rt : JsRuntime) (toAddr type : String) (data : TemplateData),
      (∀ m, (send cfg rt toAddr type data).handedToTransport = some m →
        ∃ f, templates rt.toLocaleString type = some f ∧
          m.subject = (f data).subject ∧ m.html = (f data).html ∧ m.toAddr = toAddr) ∧
      (∀ r, (send cfg rt toAddr type data).result = Except.ok r →
        r = { success := true, provider := r.provider, messageId := r.messageId }) ∧
      (∀ m e, (send cfg rt toAddr type data).handedToTransport = some m →
        rt.sendMailResult = Except.error e →
        (send cfg rt toAddr type data).result = Except.error (SendErr.transportError e)) ∧
      (∀ e, (send cfg rt toAddr type data).result = Except.error e →
        e = SendErr.unknownType type ∨
        (∃ msg, e = SendErr.configError msg ∧ createTransporter cfg = Except.error msg) ∨
        e = SendErr.nullTransporter ∨
        (∃ msg, e = SendErr.transportError msg ∧ rt.sendMailResult = Except.error msg)) := by
  intro cfg rt toAddr type data
  cases hT : templates rt.toLocaleString type with
  | none =>
    have hs : send cfg rt toAddr type data =
        { result := Except.error (SendErr.unknownType type)
          builtTransporter := false
          handedToTransport := none } := by
      unfold send; rw [hT]
    refine ⟨?_, ?_, ?_, ?_⟩ <;> rw [hs]
    · intro m hmem; exact Option.noConfusion hmem
    · intro r hr; exact Except.noConfusion hr
    · intro m e hmem; exact Option.noConfusion hmem
    · intro e he
      injection he with h
      subst h
      exact Or.inl rfl
  | some f =>
    by_cases hm : cfg.provider = "mock"
    · have hs : send cfg rt toAddr type data =
          { result := Except.ok
              { success := true, provider := "mock"
                messageId := "mock-" ++ toString rt.dateNow }
            builtTransporter := false
            handedToTransport := none } := by
        simp [send, hT, hm]
      refine ⟨?_, ?_, ?_, ?_⟩ <;> rw [hs]
      · intro m hmem; exact Option.noConfusion hmem
      · intro r hr
        injection hr with h
        subst h
        rfl
      · intro m e hmem; exact Option.noConfusion hmem
      · intro e he; exact Except.noConfusion he
    · cases hc : createTransporter cfg with
      | error e0 =>
        have hs : send cfg rt toAddr type data =
            { result := Except.error (SendErr.configError e0)
              builtTransporter := true
              handedToTransport := none } := by
          simp [send, hT, hm, hc]
        refine ⟨?_, ?_, ?_, ?_⟩ <;> rw [hs]
        · intro m hmem; exact Option.noConfusion hmem
        · intro r hr; exact Except.noConfusion hr
        · intro m e hmem; exact Option.noConfusion hmem
        · intro e he
          injection he with h
          subst h
          exact Or.inr (Or.inl ⟨e0, rfl, rfl⟩)
      | ok ot =>
        cases ot with
        | none =>
          have hs : send cfg rt toAddr type data =
              { result := Except.error SendErr.nullTransporter
                builtTransporter := true
                handedToTransport := none } := by
            simp [send, hT, hm, hc]
          refine ⟨?_, ?_, ?_, ?_⟩ <;> rw [hs]
          · intro m hmem; exact Option.noConfusion hmem
          · intro r hr; exact Except.noConfusion hr
          · intro m e hmem; exact Option.noConfusion hmem
          · intro e he
            injection he with h
            subst h
            exact Or.inr (Or.inr (Or.inl rfl))
        | some tr =>
          cases hsm : rt.sendMailResult with
          | error e1 =>
            have hs : send cfg rt toAddr type data =
                { result := Except.error (SendErr.transportError e1)
                  builtTransporter := true
                  handedToTransport := some
                    { fromField := "\"Scheduling App\" <" ++ cfg.fromAddress ++ ">"
                      toAddr := toAddr
                      subject := (f data).subject
                      html := (f data).html
                      text := toPlainText (f data).html } } := by
              simp [send, hT, hm, hc, hsm]
            refine ⟨?_, ?_, ?_, ?_⟩ <;> rw [hs]
            · intro m hmem
              injection hmem with h
              subst h
              exact ⟨f, rfl, rfl, rfl, rfl⟩
            · intro r hr; exact Except.noConfusion hr
            · intro m e hmem he1
              injection he1 with h
              subst h
              rfl
            · intro e he
              injection he with h
              subst h
              exact Or.inr (Or.inr (Or.inr ⟨e1, rfl, rfl⟩))
          | ok mid =>
            have hs : send cfg rt toAddr type data =
                { result := Except.ok
                    { success := true, provider := cfg.provider, messageId := mid }
                  builtTransporter := true
                  handedToTransport := some
                    { fromField := "\"Scheduling App\" <" ++ cfg.fromAddress ++ ">"
                      toAddr := toAddr
                      subject := (f data).subject
                      html := (f data).html
                      text := toPlainText (f data).html } } := by
              simp [send, hT, hm, hc, hsm]
            refine ⟨?_, ?_, ?_, ?_⟩ <;> rw [hs]
            · intro m hmem
              injection hmem with h
              subst h
              exact ⟨f, rfl, rfl, rfl, rfl⟩
            · intro r hr
              injection hr with h
              subst h
              rfl
            · intro m e hmem he1
              exact Except.noConfusion he1
            · intro e he; exact Except.noConfusion he

/-- C5 witness: a concrete fulfilled send resolves with success = true
and exactly the provider and message id fields. -/
theorem pipeline_transport_contract_apply :
    ({ success := true, provider := "mock"
       messageId := "mock-" ++ toString (0 : Nat) } : SendOk) =
      { success := true, provider := "mock"
        messageId := "mock-" ++ toString (0 : Nat) } :=
  (pipeline_transport_contract defaultEmailConfig
    ({ dateNow := 0, toLocaleString := fun s => s,
       sendMailResult := Except.ok "x", verifyResult := Except.ok () } : JsRuntime)
    "a@example.com" "WELCOME"
    ({ title := "t", bookingId := "1", start := "s", endTime := "e",
       name := "Ada", orgName := "o", role := "r" } : TemplateData)).2.1
    { success := true, provider := "mock", messageId := "mock-" ++ toString (0 : Nat) }
    rfl

/-- Mapping a guarded update over a list on which the guard never fires
    is the identity. -/
theorem map_ite_id {α : Type} (p : α → Bool) (f : α → α) (l : List α)
    (h : ∀ a ∈ l, p a = false) :
    l.map (fun a => if p a then f a else a) = l := by
  induction l with
  | nil => rfl
  | cons a t ih =>
    have h1 := h a (List.mem_cons_self a t)
    have h2 := ih (fun b hb => h b (List.mem_cons_of_mem a hb))
    simp [h1, h2]

/-- C6: in both producer routes the email job is enqueued only after the
corresponding database write resolved successfully — the enqueue event,
when present, immediately follows the successful write event — and no
job is enqueued when validation rejects the request or the write fails
(POST: rejected create; DELETE: cancel matching no row or the query
rejecting). -/
theorem enqueue_only_after_db_commit :
    ∀ (env : DateEnv) (req : CreateReq) (dbCreate : Except Unit BookingRow) (notifOk : Bool)
      (bookingId userId : Nat) (db : List BookingRow) (dbThrows : Bool) (notifOk2 : Bool),
      (∀ t, RouteEvent.enqueueEmail t ∈ (createBookingHandler env req dbCreate notifOk).events →
        (∃ b, dbCreate = Except.ok b) ∧
        (createBookingHandler env req dbCreate notifOk).events.take 2 =
          [RouteEvent.dbCreate true, RouteEvent.enqueueEmail "BOOKING_CONFIRMATION"]) ∧
      ((createBookingHandler env req dbCreate notifOk).status = 400 →
        (createBookingHandler env req dbCreate notifOk).events = []) ∧
      (dbCreate = Except.error () →
        ∀ t, RouteEvent.enqueueEmail t ∉ (createBookingHandler env req dbCreate notifOk).events) ∧
      (∀ t, RouteEvent.enqueueEmail t ∈ (cancelBookingHandler bookingId userId db dbThrows notifOk2).1.events →
        ∃ row, (BookingModel.cancel bookingId userId db).1 = some row ∧
          (cancelBookingHandler bookingId userId db dbThrows notifOk2).1.events.take 2 =
            [RouteEvent.dbCancelOk row.id, RouteEvent.enqueueEmail "BOOKING_CANCELLED"]) ∧
      ((BookingModel.cancel bookingId userId db).1 = none →
        (cancelBookingHandler bookingId userId db dbThrows notifOk2).1.events = []) := by
  intro env req dbCreate notifOk bookingId userId db dbThrows notifOk2
  refine ⟨?_, ?_, ?_, ?_, ?_⟩
  · intro t ht
    unfold createBookingHandler at ht ⊢
    repeat' split at ht
    all_goals repeat' split
    all_goals simp_all
  · intro h400
    unfold createBookingHandler at h400 ⊢
    repeat' split at h400
    all_goals simp_all
  · intro hdb t ht
    subst hdb
    unfold createBookingHandler at ht
    repeat' split at ht
    all_goals simp_all
  · intro t ht
    unfold cancelBookingHandler at ht ⊢
    repeat' split at ht
    all_goals simp_all
  · intro hnone
    unfold cancelBookingHandler
    repeat' split
    all_goals simp_all

/-- C6 witness: a request rejected by validation (missing fields, hence
status 400) enqueues nothing. -/
theorem enqueue_only_after_db_commit_apply :
    (createBookingHandler ({ parse := fun _ => none, now := 0 } : DateEnv)
      ({ title := none, start := none, endField := none } : CreateReq)
      (Except.error ()) true).events = [] :=
  (enqueue_only_after_db_commit ({ parse := fun _ => none, now := 0 } : DateEnv)
    ({ title := none, start := none, endField := none } : CreateReq)
    (Except.error ()) true 1 1 [] false true).2.1 rfl

/-- C10: cancellation is terminal and atomic at the public interface.
When no booking row matches (missing id, different owner, or already
cancelled), BookingModel.cancel updates no row and returns none, and the
DELETE handler answers 404 with no enqueued email and no notification;
moreover a cancelled row is never modified by any cancel call. -/
theorem cancel_terminal_and_404 :
    ∀ (bookingId userId : Nat) (db : List BookingRow),
      ((∀ r ∈ db, r.id = bookingId → (r.userId ≠ userId ∨ r.status = "cancelled")) →
        BookingModel.cancel bookingId userId db = (none, db) ∧
        ∀ (notifOk : Bool),
          cancelBookingHandler bookingId userId db false notifOk =
            ({ status := 404, events := [] }, db)) ∧
      (∀ r ∈ db, r.status = "cancelled" → r ∈ (BookingModel.cancel bookingId userId db).2) := by
  intro bookingId userId db
  constructor
  · intro h
    have hfalse : ∀ r ∈ db, cancelWhere bookingId userId r = false := by
      intro r hr
      by_cases hid : r.id = bookingId
      · rcases h r hr hid with huid | hstat
        · simp [cancelWhere, hid, huid]
        · simp [cancelWhere, hstat]
      · simp [cancelWhere, hid]
    have hfilter : db.filter (cancelWhere bookingId userId) = [] := by
      rw [List.filter_eq_nil_iff]
      intro a ha
      simp [hfalse a ha]
    have key : BookingModel.cancel bookingId userId db = (none, db) := by
      unfold BookingModel.cancel
      rw [hfilter, map_ite_id _ _ _ hfalse]
      rfl
    refine ⟨key, ?_⟩
    intro notifOk
    unfold cancelBookingHandler
    rw [key]
    rfl
  · intro r hr hst
    have hw : cancelWhere bookingId userId r = false := by
      simp [cancelWhere, hst]
    unfold BookingModel.cancel
    have hfix : (fun x => if cancelWhere bookingId userId x then cancelSet x else x) r = r := by
      simp [hw]
    simpa [hfix] using List.mem_map_of_mem
      (fun x => if cancelWhere bookingId userId x then cancelSet x else x) hr

/-- C10 witness: cancelling an already-cancelled booking updates no row
and returns none. -/
theorem cancel_terminal_and_404_apply :
    BookingModel.cancel 1 5
      [({ id := 1, userId := 5, title := "Standup", startTime := "s",
          endTime := "e", status := "cancelled" } : BookingRow)] =
      (none,
        [({ id := 1, userId := 5, title := "Standup", startTime := "s",
            endTime := "e", status := "cancelled" } : BookingRow)]) :=
  ((cancel_terminal_and_404 1 5
    [({ id := 1, userId := 5, title := "Standup", startTime := "s",
        endTime := "e", status := "cancelled" } : BookingRow)]).1
    (by
      intro r hr hid
      simp only [List.mem_singleton] at hr
      subst hr
      exact Or.inr rfl)).1

end EventScheduler
